import Mathlib

/-!
Verification development for the vibium session router
(package `proxy` in `src/clicker/internal/proxy` plus the router file, and
package `bidi` in `src/clicker/internal/bidi`).

The Go code guards every mutable flag with a mutex (`sync.Mutex`) or uses an
atomic primitive (`atomic.Uint64`, `sync.Map`), so each guarded critical
section is atomic and any concurrent execution is equivalent to some
sequential interleaving of those sections.  The embedding therefore models
each operation as a pure state transition, and concurrency claims become
statements over arbitrary sequences of such transitions.  Externally
observable side effects (frames written, channels closed, processes
terminated) are returned as explicit effect traces.
-/

/-- Error values produced by the channel layer.  `channelClosed` embeds the
Go string error `connection closed`; `ioError` stands for a failure of the
underlying websocket transport; `protocolViolation t` embeds the error
`expected text message, got type t` returned by `Connection.Receive`. -/
inductive ChanError where
  | channelClosed
  | ioError
  | protocolViolation (t : Nat)
  deriving Repr, DecidableEq

/-- State of one message channel.  Both `ClientConn` (client side) and
`Connection` (engine side) consist of a websocket handle, a mutex and a
`closed` flag; the two counters record how many times a close-notification
frame was written and how many times the underlying transport was closed,
so that re-sending or re-closing is observable in the model. -/
structure ChanState where
  closed : Bool
  closeMsgsSent : Nat
  transportCloseCount : Nat
  deriving Repr, DecidableEq

/-- A freshly opened channel: `closed` is false, nothing written yet. -/
def chanInit : ChanState :=
  { closed := false, closeMsgsSent := 0, transportCloseCount := 0 }

/-- The gorilla/websocket text-message frame type constant. -/
def textMessage : Nat := 1

/-- Embeds `ClientConn.Send` (server.go lines 182-192): under the mutex, if
the `closed` flag is set return the connection-closed error, otherwise
attempt the transport write, whose success is the oracle `writeOk`.  The
channel state is never modified. -/
def clientConnSend (c : ChanState) (writeOk : Bool) :
    ChanState × Except ChanError Unit :=
  if c.closed then (c, Except.error ChanError.channelClosed)
  else (c, if writeOk then Except.ok () else Except.error ChanError.ioError)

/-- Embeds `ClientConn.Close` (server.go lines 194-209): under the mutex, if
already closed return nil immediately; otherwise set the flag, write the
close-notification frame and close the transport.  The oracle
`transportOk` gives the result of the final transport close, which is
returned to the caller. -/
def clientConnClose (c : ChanState) (transportOk : Bool) :
    ChanState × Except ChanError Unit :=
  if c.closed then (c, Except.ok ())
  else
    ({ closed := true,
       closeMsgsSent := c.closeMsgsSent + 1,
       transportCloseCount := c.transportCloseCount + 1 },
     if transportOk then Except.ok () else Except.error ChanError.ioError)

/-- Embeds `Connection.Send` (browsingcontext.go engine-side part, lines
159-169): textually identical to `ClientConn.Send`. -/
def connectionSend (c : ChanState) (writeOk : Bool) :
    ChanState × Except ChanError Unit :=
  if c.closed then (c, Except.error ChanError.channelClosed)
  else (c, if writeOk then Except.ok () else Except.error ChanError.ioError)

/-- Embeds `Connection.Close` (browsingcontext.go lines 190-205): textually
identical to `ClientConn.Close`. -/
def connectionClose (c : ChanState) (transportOk : Bool) :
    ChanState × Except ChanError Unit :=
  if c.closed then (c, Except.ok ())
  else
    ({ closed := true,
       closeMsgsSent := c.closeMsgsSent + 1,
       transportCloseCount := c.transportCloseCount + 1 },
     if transportOk then Except.ok () else Except.error ChanError.ioError)

/-- Outcome of one blocking transport read (`conn.ReadMessage`):
either an error, or a frame with its websocket message type and payload. -/
inductive ReadOutcome where
  | fail
  | frame (msgType : Nat) (payload : String)
  deriving Repr, DecidableEq

/-- Embeds `Connection.Receive` (browsingcontext.go lines 171-188): if the
`closed` flag is set (read without the mutex) return the connection-closed
error; on a transport read error propagate it; on a frame whose type is not
the text type return the protocol-violation error; otherwise return the
payload.  Receive never modifies the channel state. -/
def connectionReceive (c : ChanState) (r : ReadOutcome) :
    Except ChanError String :=
  if c.closed then Except.error ChanError.channelClosed
  else
    match r with
    | ReadOutcome.fail => Except.error ChanError.ioError
    | ReadOutcome.frame t p =>
        if t = textMessage then Except.ok p
        else Except.error (ChanError.protocolViolation t)

/-- Embeds the read loop of `Server.handleClient` (server.go lines 163-179)
applied to the sequence of read outcomes of one connection: a read error
ends the loop; a frame whose type is not the text type is skipped and the
loop continues; a text frame is delivered to the onMessage callback.
Returns the list of delivered payloads in order.  The deferred registry
removal and close that follow the loop are modelled by
`onClientDisconnect`. -/
def handleClientLoop : List ReadOutcome → List String
  | [] => []
  | ReadOutcome.fail :: _ => []
  | ReadOutcome.frame t p :: rest =>
      if t = textMessage then p :: handleClientLoop rest
      else handleClientLoop rest

/-- Embeds the client identifier assignment of `Server.handleWebSocket`
(server.go line 137): `ID: s.nextID.Add(1)` on an `atomic.Uint64` counter
starting at zero, so the i-th accepted connection (0-based) receives the
identifier (i + 1) reduced modulo 2 ^ 64. -/
def assignedId (i : Nat) : Nat := (i + 1) % 2 ^ 64

/-- Modelled from the spec: the Engine Provisioner process handle close,
`processHandle.close() -> success` (idempotent, tolerates an already-exited
process).  The `browser` package that implements `LaunchResult.Close` is not
among the given sources, only its callers are; per the spec the call always
succeeds, whether or not the handle was already released. -/
def launchHandleClose (_alreadyClosed : Bool) : Bool × Except ChanError Unit :=
  (true, Except.ok ())

/-- Embeds `BrowserSession` (router file lines 11-19).  `clientId` is the
owning client identifier; `bidi` and `client` are the states of the
engine-side and client-side channels; `closed` is the mutex-guarded
teardown flag; `stopClosed` records whether the stop channel has been
closed, `stopCloseCount` how many times `close(stopChan)` was executed
(closing a Go channel twice panics, so this count must never exceed one);
`launchClosed` and `launchCloseCount` track the engine process handle and
how many times its close was invoked. -/
structure BrowserSession where
  clientId : Nat
  bidi : ChanState
  client : ChanState
  closed : Bool
  stopClosed : Bool
  stopCloseCount : Nat
  launchClosed : Bool
  launchCloseCount : Nat
  deriving Repr, DecidableEq

/-- A session as constructed by `Router.OnClientConnect` (router file lines
64-69): both channels open, not closed, stop channel open, engine handle
live. -/
def freshSession (id : Nat) : BrowserSession :=
  { clientId := id
    bidi := chanInit
    client := chanInit
    closed := false
    stopClosed := false
    stopCloseCount := 0
    launchClosed := false
    launchCloseCount := 0 }

/-- The observable steps of the teardown body of `Router.closeSession`, in
the order the source performs them: set the `closed` flag (line 151), close
the stop channel (line 157), close the BiDi connection (lines 160-162),
close the browser launch handle (lines 165-167). -/
inductive TeardownStep where
  | setClosed
  | closeStop
  | closeBidi
  | closeLaunch
  deriving Repr, DecidableEq

/-- The full resource-release sequence, in source order. -/
def fullTeardown : List TeardownStep :=
  [TeardownStep.setClosed, TeardownStep.closeStop,
   TeardownStep.closeBidi, TeardownStep.closeLaunch]

/-- Embeds `Router.closeSession` (router file lines 144-170): under the
session mutex, if `closed` is already set return immediately with no steps;
otherwise set `closed` and run the release sequence: close the stop
channel, close the BiDi connection via `Connection.Close` (the nil check on
line 160 is always true for sessions built by `OnClientConnect`), and close
the launch handle.  The return values of the two closes are discarded, as
in the source; the trace records the steps in source order.  The client
channel is never touched. -/
def closeSession (s : BrowserSession) : BrowserSession × List TeardownStep :=
  if s.closed then (s, [])
  else
    ({ s with
        closed := true
        stopClosed := true
        stopCloseCount := s.stopCloseCount + 1
        bidi := (connectionClose s.bidi true).1
        launchClosed := (launchHandleClose s.launchClosed).1
        launchCloseCount := s.launchCloseCount + 1 },
     fullTeardown)

/-- Iterates `closeSession` n times, concatenating the step traces.  Since
the mutex-guarded flag check in the source is atomic, any number of
sequential or concurrent teardown attempts (client disconnect, CloseAll,
racing fault detectors) is equivalent to such an iteration. -/
def closeSessionIter : Nat → BrowserSession → BrowserSession × List TeardownStep
  | 0, s => (s, [])
  | Nat.succ n, s =>
      let p := closeSession s
      let q := closeSessionIter n p.1
      (q.1, p.2 ++ q.2)

/-- Embeds the session registry `Router.sessions`, a `sync.Map` keyed by
client identifier, as an association list with pairwise distinct keys. -/
def Registry : Type := List (Nat × BrowserSession)

/-- Registry lookup (`sync.Map.Load`). -/
def regFind : List (Nat × BrowserSession) → Nat → Option BrowserSession
  | [], _ => none
  | (k, s) :: rest, id => if k = id then some s else regFind rest id

/-- Registry removal of a key (`sync.Map.Delete`, and the removal half of
`LoadAndDelete`); removes the first occurrence, which under the
distinct-keys invariant of `sync.Map` is the only one. -/
def regRemove : List (Nat × BrowserSession) → Nat → List (Nat × BrowserSession)
  | [], _ => []
  | (k, s) :: rest, id =>
      if k = id then rest else (k, s) :: regRemove rest id

/-- Registry insert-or-replace (`sync.Map.Store`). -/
def regStore (reg : List (Nat × BrowserSession)) (id : Nat)
    (s : BrowserSession) : List (Nat × BrowserSession) :=
  (id, s) :: regRemove reg id

/-- Embeds `Router` (router file lines 21-25): the session registry plus
the headless configuration flag. -/
structure Router where
  sessions : List (Nat × BrowserSession)
  headless : Bool
  deriving Repr, DecidableEq

/-- Outcome of the external `browser.Launch` call (the `browser` package is
an external collaborator; its outcome is an oracle input). -/
inductive LaunchOutcome where
  | ok (wsURL : String)
  | fail (msg : String)
  deriving Repr, DecidableEq

/-- Outcome of the external `bidi.Connect` call. -/
inductive ConnectOutcome where
  | ok
  | fail (msg : String)
  deriving Repr, DecidableEq

/-- Observable effects of `Router.OnClientConnect`: a frame written to the
client channel (`client.Send`), the client channel closed
(`client.Close`), the launch handle released (`launchResult.Close`), a
session stored in the registry, and the engine-to-client relay goroutine
started. -/
inductive ConnectEffect where
  | sentToClient (frame : String)
  | closedClient
  | closedLaunch
  | registered (id : Nat)
  | startedRelay (id : Nat)
  deriving Repr, DecidableEq

/-- The fixed head of both structured error frames sent by
`Router.OnClientConnect` on a failure path. -/
def errFrameHead : String :=
  "\x7b\"error\":\x7b\"code\":-32000,\"message\":\""

/-- The error frame sent when `browser.Launch` fails (router file line 45),
with the error text interpolated as by `fmt.Sprintf`. -/
def launchErrFrame (msg : String) : String :=
  errFrameHead ++ ("Failed to launch browser: " ++ msg ++ "\"\x7d\x7d")

/-- The error frame sent when `bidi.Connect` fails (router file line 57). -/
def connectErrFrame (msg : String) : String :=
  errFrameHead ++ ("Failed to connect to browser: " ++ msg ++ "\"\x7d\x7d")

/-- Embeds `Router.OnClientConnect` (router file lines 34-75), with the
outcomes of the two external calls passed as oracles.  On launch failure:
send one error frame, close the client, register nothing (`bidi.Connect`
is never attempted).  On connect failure: release the launch handle first,
then send one error frame and close the client; register nothing.  On
success: store a fresh session under the client identifier and start the
relay goroutine. -/
def onClientConnect (r : Router) (id : Nat) (launch : LaunchOutcome)
    (conn : ConnectOutcome) : Router × List ConnectEffect :=
  match launch with
  | LaunchOutcome.fail m =>
      (r, [ConnectEffect.sentToClient (launchErrFrame m),
           ConnectEffect.closedClient])
  | LaunchOutcome.ok _ =>
      match conn with
      | ConnectOutcome.fail m =>
          (r, [ConnectEffect.closedLaunch,
               ConnectEffect.sentToClient (connectErrFrame m),
               ConnectEffect.closedClient])
      | ConnectOutcome.ok =>
          ({ r with sessions := regStore r.sessions id (freshSession id) },
           [ConnectEffect.registered id, ConnectEffect.startedRelay id])

/-- Observable effects of `Router.OnClientMessage`: the payload forwarded
to the engine channel, or one of the two logged-and-ignored outcomes.  The
effect type deliberately contains no teardown step and no channel close:
the source never performs either from this path. -/
inductive MessageEffect where
  | forwardedToEngine (payload : String)
  | loggedNoSession
  | loggedSendFailure
  deriving Repr, DecidableEq

/-- Embeds `Router.OnClientMessage` (router file lines 77-99): look the
session up; if absent, log and return.  If present, check the
mutex-guarded `closed` flag; if set, return silently.  Otherwise forward
the payload via `Connection.Send` (whose transport success is the oracle
`writeOk`); a send error is logged and ignored.  The registry and the
session are never modified. -/
def onClientMessage (r : Router) (id : Nat) (msg : String) (writeOk : Bool) :
    Router × List MessageEffect :=
  match regFind r.sessions id with
  | none => (r, [MessageEffect.loggedNoSession])
  | some s =>
      if s.closed then (r, [])
      else
        match (connectionSend s.bidi writeOk).2 with
        | Except.ok _ => (r, [MessageEffect.forwardedToEngine msg])
        | Except.error _ => (r, [MessageEffect.loggedSendFailure])

/-- Embeds `Router.OnClientDisconnect` (router file lines 101-111): an
atomic `LoadAndDelete` of the registry entry; if no entry was present,
return with nothing done; if one was present, run `closeSession` on it.
The torn-down session state and the teardown steps are returned so the
release effects are observable. -/
def onClientDisconnect (r : Router) (id : Nat) :
    Router × Option (BrowserSession × List TeardownStep) :=
  match regFind r.sessions id with
  | none => (r, none)
  | some s =>
      let p := closeSession s
      ({ r with sessions := regRemove r.sessions id }, some (p.1, p.2))

/-- Oracle input for one iteration of the engine-to-client relay loop of
`Router.routeBrowserToClient`: either the stop channel is observed closed
by the select at the top of the iteration, or the blocking
`BidiConn.Receive` fails, or it yields a text payload whose forward to the
client (`Client.Send`) succeeds or fails as recorded. -/
inductive RelayInput where
  | stopSignal
  | recvFail
  | frame (payload : String) (sendOk : Bool)
  deriving Repr, DecidableEq

/-- How the relay loop exited.  `recvFailed closedClient` records whether
the loop closed the client channel on the receive failure (it does so only
when the session had not already entered the closed state); `sendFailed`
carries no close: on a forward failure the loop exits without further
action; `ranOut` means the input schedule was exhausted with the loop
still running. -/
inductive RelayExit where
  | stoppedBySignal
  | recvFailed (closedClient : Bool)
  | sendFailed
  | ranOut
  deriving Repr, DecidableEq

/-- Embeds `Router.routeBrowserToClient` (router file lines 113-142) run
against a schedule of iteration inputs.  `sessionClosed` is the value the
loop reads from the mutex-guarded `session.closed` flag at the moment a
receive failure is handled (the only point where the flag is read).
Returns the payloads forwarded to the client, in order, and the exit
condition. -/
def routeBrowserToClient (sessionClosed : Bool) :
    List RelayInput → List String × RelayExit
  | [] => ([], RelayExit.ranOut)
  | RelayInput.stopSignal :: _ => ([], RelayExit.stoppedBySignal)
  | RelayInput.recvFail :: _ => ([], RelayExit.recvFailed (!sessionClosed))
  | RelayInput.frame p sendOk :: rest =>
      if sendOk then
        let q := routeBrowserToClient sessionClosed rest
        (p :: q.1, q.2)
      else ([], RelayExit.sendFailed)

/-- Follows the spec words for the relay loop: an iteration input is a
successfully forwarded frame when it is a frame whose client send
succeeds. -/
def okFrame : RelayInput → Bool
  | RelayInput.frame _ sendOk => sendOk
  | _ => false

/-- Payload of a relay input (defaulting to the empty string for the
non-frame inputs, which `relaySpecForwarded` never keeps). -/
def relayPayload : RelayInput → String
  | RelayInput.frame p _ => p
  | _ => ""

/-- Follows the spec words: the relay forwards, in receipt order, exactly
the payloads of the longest prefix of successfully forwarded frames. -/
def relaySpecForwarded (inputs : List RelayInput) : List String :=
  (inputs.takeWhile okFrame).map relayPayload

/-- Follows the spec words: the relay exits at the first input that is not
a successfully forwarded frame — immediately on a stop signal; on a
receive failure it closes the client channel if and only if the session
has not already entered the closed state; on a forward failure it exits
without closing anything. -/
def relaySpecExit (sessionClosed : Bool) (inputs : List RelayInput) :
    RelayExit :=
  match inputs.dropWhile okFrame with
  | [] => RelayExit.ranOut
  | RelayInput.stopSignal :: _ => RelayExit.stoppedBySignal
  | RelayInput.recvFail :: _ => RelayExit.recvFailed (!sessionClosed)
  | RelayInput.frame _ _ :: _ => RelayExit.sendFailed

/-- The state of a fresh session after its first teardown. -/
def tornDownFresh (id : Nat) : BrowserSession :=
  { clientId := id
    bidi := { closed := true, closeMsgsSent := 1, transportCloseCount := 1 }
    client := chanInit
    closed := true
    stopClosed := true
    stopCloseCount := 1
    launchClosed := true
    launchCloseCount := 1 }

/-- A router with an empty registry. -/
def routerEmpty : Router := { sessions := [], headless := true }

/-- A router holding one live session for client 1. -/
def routerOpen : Router :=
  { sessions := [(1, freshSession 1)], headless := true }

/-- A router still holding a registry entry for a session whose teardown
has already run (the transient state inside `CloseAll` between
`closeSession` and the registry delete). -/
def routerStale : Router :=
  { sessions := [(1, tornDownFresh 1)], headless := true }

/-- Helper: the guarded teardown body does nothing once the `closed` flag
is set. -/
theorem closeSession_of_closed (s : BrowserSession) (h : s.closed = true) :
    closeSession s = (s, []) := by
  simp [closeSession, h]

/-- Helper: iterating teardown on an already-closed session does nothing. -/
theorem closeSessionIter_of_closed (n : Nat) (s : BrowserSession)
    (h : s.closed = true) : closeSessionIter n s = (s, []) := by
  induction n with
  | zero => rfl
  | succ n ih => simp [closeSessionIter, closeSession_of_closed s h, ih]

/-- Helper: computing the first teardown of a fresh session. -/
theorem closeSession_fresh (id : Nat) :
    closeSession (freshSession id) = (tornDownFresh id, fullTeardown) := rfl

/-- C1: for every session, the teardown body executes at most once however
many times teardown is invoked (the mutex-guarded flag check makes every
interleaving of concurrent callers equivalent to some sequence of calls):
after any positive number of `closeSession` calls on a fresh session the
concatenated effect trace is exactly one resource-release sequence, the
stop channel has been closed exactly once and the engine process handle
has been closed exactly once, and every call after the first returns with
no further steps and no error. -/
theorem closeSession_body_at_most_once (id n : Nat) :
    (closeSessionIter (n + 1) (freshSession id)).2 = fullTeardown
  ∧ (closeSessionIter (n + 1) (freshSession id)).1.stopCloseCount = 1
  ∧ (closeSessionIter (n + 1) (freshSession id)).1.launchCloseCount = 1
  ∧ (∀ s : BrowserSession, s.closed = true → closeSession s = (s, [])) := by
  have h2 : closeSessionIter (n + 1) (freshSession id)
      = (tornDownFresh id, fullTeardown) := by
    simp [closeSessionIter, closeSession_fresh,
      closeSessionIter_of_closed n (tornDownFresh id) rfl]
  exact ⟨by rw [h2], by rw [h2]; rfl, by rw [h2]; rfl, closeSession_of_closed⟩

/-- Witness for C1 at a concrete session and call count. -/
theorem closeSession_body_at_most_once_witness :
    (closeSessionIter 3 (freshSession 7)).2 = fullTeardown
  ∧ closeSession (closeSessionIter 3 (freshSession 7)).1
      = ((closeSessionIter 3 (freshSession 7)).1, []) :=
  ⟨(closeSession_body_at_most_once 7 2).1,
   (closeSession_body_at_most_once 7 2).2.2.2 _ (by decide)⟩

/-- C5: the engine-to-client relay loop forwards, in order, exactly the
payloads of the longest prefix of inputs that are frames successfully sent
to the client, and exits at the first other input: immediately on the stop
signal; on a receive failure, closing the client channel if and only if
the session has not already entered the closed state; on a forward
failure, exiting without closing anything. -/
theorem routeBrowserToClient_spec (c : Bool) (inputs : List RelayInput) :
    routeBrowserToClient c inputs
      = (relaySpecForwarded inputs, relaySpecExit c inputs) := by
  induction inputs with
  | nil => rfl
  | cons hd tl ih =>
      cases hd with
      | stopSignal => rfl
      | recvFail => rfl
      | frame p sendOk =>
          cases sendOk with
          | true =>
              simp [routeBrowserToClient, relaySpecForwarded, relaySpecExit,
                List.takeWhile_cons, List.dropWhile_cons, okFrame,
                relayPayload, ih]
          | false => rfl

/-- C9: close is idempotent for both message channels: a second close
leaves the channel state exactly as the first left it (in particular the
close-notification frame is not re-sent and the transport is not re-closed,
as the two counters are unchanged) and the second call returns success. -/
theorem channel_close_idempotent (c : ChanState) (w1 w2 : Bool) :
    clientConnClose (clientConnClose c w1).1 w2
        = ((clientConnClose c w1).1, Except.ok ())
  ∧ connectionClose (connectionClose c w1).1 w2
        = ((connectionClose c w1).1, Except.ok ()) := by
  cases hc : c.closed <;>
    simp [clientConnClose, connectionClose, hc]

/-- C10: on both message channels a send never modifies the channel state
(so a failed send leaves the channel open and a later close still performs
the full close sequence), and a send returns the channel-closed error if
and only if the closed flag is set, which only a completed close sets; on
an open channel the send result is exactly the transport write result. -/
theorem channel_send_preserves_state (c : ChanState) (w w2 : Bool) :
    (clientConnSend c w).1 = c
  ∧ (connectionSend c w).1 = c
  ∧ ((clientConnSend c w).2 = Except.error ChanError.channelClosed
        ↔ c.closed = true)
  ∧ ((connectionSend c w).2 = Except.error ChanError.channelClosed
        ↔ c.closed = true)
  ∧ (c.closed = false →
      (clientConnSend c w).2
        = (if w then Except.ok () else Except.error ChanError.ioError))
  ∧ (c.closed = false →
      clientConnClose (clientConnSend c w).1 w2
        = ({ closed := true, closeMsgsSent := c.closeMsgsSent + 1,
             transportCloseCount := c.transportCloseCount + 1 },
           if w2 then Except.ok () else Except.error ChanError.ioError)) := by
  cases hc : c.closed with
  | true => simp [clientConnSend, connectionSend, clientConnClose, hc]
  | false =>
      cases w <;> simp [clientConnSend, connectionSend, clientConnClose, hc]

/-- Witness for C10 at a concrete open channel with a failing write. -/
theorem channel_send_preserves_state_witness :
    (clientConnSend chanInit false).2
        = (if false then Except.ok () else Except.error ChanError.ioError)
  ∧ clientConnClose (clientConnSend chanInit false).1 true
        = ({ closed := true, closeMsgsSent := chanInit.closeMsgsSent + 1,
             transportCloseCount := chanInit.transportCloseCount + 1 },
           if true then Except.ok () else Except.error ChanError.ioError) :=
  ⟨(channel_send_preserves_state chanInit false true).2.2.2.2.1 rfl,
   (channel_send_preserves_state chanInit false true).2.2.2.2.2 rfl⟩

/-- Counterexample for C2 as stated: the identifier counter is a 64-bit
atomic that wraps.  In a process that accepts 2 ^ 64 + 1 connections the
identifier assigned to the 2 ^ 64 - th connection (0-based index
2 ^ 64 - 1) is 0, smaller than the identifier 1 assigned to the first
connection, so the sequence is not monotonically increasing; and the
connection at index 2 ^ 64 is assigned the identifier 1 again, a reuse. -/
theorem assignedId_wraparound_cex :
    assignedId (2 ^ 64 - 1) < assignedId 0
  ∧ (0 : Nat) < 2 ^ 64 - 1
  ∧ assignedId (2 ^ 64) = assignedId 0 := by
  refine ⟨by decide, by decide, by decide⟩

/-- C2 amended: for every sequence of at most 2 ^ 64 - 1 accepted
connections the assigned identifiers are pairwise distinct and strictly
monotonically increasing; the 64-bit counter only wraps beyond that. -/
theorem assignedId_strictMono_within_bound (i j : Nat) (hij : i < j)
    (hj : j < 2 ^ 64 - 1) :
    assignedId i < assignedId j ∧ assignedId i ≠ assignedId j := by
  have h64 : (2 : Nat) ^ 64 = 18446744073709551616 := by norm_num
  unfold assignedId
  rw [h64] at hj ⊢
  rw [Nat.mod_eq_of_lt (by omega), Nat.mod_eq_of_lt (by omega)]
  omega

/-- Witness for the amended C2 at concrete indices. -/
theorem assignedId_strictMono_witness :
    assignedId 0 < assignedId 1 ∧ assignedId 0 ≠ assignedId 1 :=
  assignedId_strictMono_within_bound 0 1 (by norm_num) (by norm_num)

/-- C3: when `OnClientConnect` fails to establish a session, on either
failure path the client receives exactly one structured error frame - the
explicit effect lists contain exactly one `sentToClient` - whose text
extends the fixed `-32000` error-frame head, the client channel is closed
right after it, and the router registry is returned unchanged, so no
session is registered for the identifier; on the channel-open failure path
the launch handle is released before the error frame is sent. -/
theorem onClientConnect_failure_paths (r : Router) (id : Nat)
    (m url : String) (conn : ConnectOutcome) :
    (onClientConnect r id (LaunchOutcome.fail m) conn
       = (r, [ConnectEffect.sentToClient (launchErrFrame m),
              ConnectEffect.closedClient]))
  ∧ (onClientConnect r id (LaunchOutcome.ok url) (ConnectOutcome.fail m)
       = (r, [ConnectEffect.closedLaunch,
              ConnectEffect.sentToClient (connectErrFrame m),
              ConnectEffect.closedClient]))
  ∧ (∃ t, launchErrFrame m = errFrameHead ++ t)
  ∧ (∃ t, connectErrFrame m = errFrameHead ++ t) :=
  ⟨rfl, rfl, ⟨_, rfl⟩, ⟨_, rfl⟩⟩

/-- C4: `OnClientMessage` for an identifier with no registry entry, or
whose session has its teardown flag set, is a no-op: it forwards nothing,
returns no error and leaves the router unchanged (the effect type contains
no teardown step and no session creation, mirroring the source, which
performs neither from this path).  When a live session is present and the
forward fails, the router is still returned unchanged, the engine channel
state is untouched by the send, and the failure is only logged. -/
theorem onClientMessage_silent (r : Router) (id : Nat) (msg : String)
    (w : Bool) :
    (regFind r.sessions id = none →
       onClientMessage r id msg w = (r, [MessageEffect.loggedNoSession]))
  ∧ (∀ s, regFind r.sessions id = some s → s.closed = true →
       onClientMessage r id msg w = (r, []))
  ∧ (∀ s, regFind r.sessions id = some s → s.closed = false →
       (onClientMessage r id msg w).1 = r
     ∧ (connectionSend s.bidi w).1 = s.bidi
     ∧ (w = false →
          onClientMessage r id msg w
            = (r, [MessageEffect.loggedSendFailure]))) := by
  refine ⟨fun h => by simp [onClientMessage, h],
    fun s hs hc => by simp [onClientMessage, hs, hc],
    fun s hs hc => ⟨?_, ?_, ?_⟩⟩
  · cases h2 : (connectionSend s.bidi w).2 <;>
      simp [onClientMessage, hs, hc, h2]
  · cases hb : s.bidi.closed <;> simp [connectionSend, hb]
  · intro hw
    subst hw
    cases hb : s.bidi.closed <;>
      simp [onClientMessage, hs, hc, connectionSend, hb]

/-- Witness for C4: an unknown identifier, a torn-down session still in
the registry, and a live session with a failing forward. -/
theorem onClientMessage_silent_witness :
    onClientMessage routerEmpty 5 "m" true
        = (routerEmpty, [MessageEffect.loggedNoSession])
  ∧ onClientMessage routerStale 1 "m" true = (routerStale, [])
  ∧ onClientMessage routerOpen 1 "m" false
        = (routerOpen, [MessageEffect.loggedSendFailure]) :=
  ⟨(onClientMessage_silent routerEmpty 5 "m" true).1 rfl,
   (onClientMessage_silent routerStale 1 "m" true).2.1 (tornDownFresh 1)
      rfl rfl,
   ((onClientMessage_silent routerOpen 1 "m" false).2.2 (freshSession 1)
      rfl rfl).2.2 rfl⟩

/-- Helper: a key that does not occur in the registry is not found. -/
theorem regFind_eq_none_of_not_mem (l : List (Nat × BrowserSession))
    (id : Nat) (h : id ∉ l.map Prod.fst) : regFind l id = none := by
  induction l with
  | nil => rfl
  | cons hd tl ih =>
      obtain ⟨k, s⟩ := hd
      simp only [List.map_cons, List.mem_cons] at h
      push_neg at h
      have hk : ¬ k = id := fun hh => h.1 hh.symm
      simp [regFind, hk, ih h.2]

/-- Helper: after removing a key from a distinct-key registry, a lookup of
that key fails. -/
theorem regFind_regRemove_self (l : List (Nat × BrowserSession)) (id : Nat)
    (h : (l.map Prod.fst).Nodup) : regFind (regRemove l id) id = none := by
  induction l with
  | nil => rfl
  | cons hd tl ih =>
      obtain ⟨k, s⟩ := hd
      simp only [List.map_cons, List.nodup_cons] at h
      by_cases hk : k = id
      · subst hk
        simp only [regRemove, if_pos rfl]
        exact regFind_eq_none_of_not_mem tl k h.1
      · simp [regRemove, hk, regFind, ih h.2]

/-- C6: `OnClientDisconnect` removes the registry entry at most once via
the atomic take: for an unknown or already-removed identifier it returns
the router unchanged with no teardown; when an entry is present it removes
it (a repeated disconnect then finds nothing and does nothing) and runs
the guarded teardown on it, and for a mid-session disconnect (teardown
flag not yet set) this performs the full release sequence, incrementing
the stop-channel close count and the engine process handle close count by
exactly one and leaving the engine channel closed. -/
theorem onClientDisconnect_take_once (r : Router) (id : Nat) :
    (regFind r.sessions id = none → onClientDisconnect r id = (r, none))
  ∧ (∀ s, regFind r.sessions id = some s →
       (r.sessions.map Prod.fst).Nodup →
       onClientDisconnect r id
         = ({ r with sessions := regRemove r.sessions id },
            some ((closeSession s).1, (closeSession s).2))
     ∧ regFind (regRemove r.sessions id) id = none
     ∧ onClientDisconnect { r with sessions := regRemove r.sessions id } id
         = ({ r with sessions := regRemove r.sessions id }, none)
     ∧ (s.closed = false →
          (closeSession s).2 = fullTeardown
        ∧ (closeSession s).1.launchCloseCount = s.launchCloseCount + 1
        ∧ (closeSession s).1.stopCloseCount = s.stopCloseCount + 1
        ∧ (closeSession s).1.bidi.closed = true)) := by
  constructor
  · intro h
    simp [onClientDisconnect, h]
  · intro s hs hnd
    have hgone : regFind (regRemove r.sessions id) id = none :=
      regFind_regRemove_self r.sessions id hnd
    refine ⟨by simp [onClientDisconnect, hs], hgone,
      by simp [onClientDisconnect, hgone], ?_⟩
    intro hc
    refine ⟨by simp [closeSession, hc, fullTeardown],
      by simp [closeSession, hc], by simp [closeSession, hc], ?_⟩
    cases hb : s.bidi.closed <;> simp [closeSession, hc, connectionClose, hb]

/-- Witness for C6: an unknown identifier does nothing; disconnecting the
one live client empties the registry and yields the full release trace. -/
theorem onClientDisconnect_take_once_witness :
    onClientDisconnect routerEmpty 5 = (routerEmpty, none)
  ∧ onClientDisconnect routerOpen 1
      = ({ routerOpen with sessions := regRemove routerOpen.sessions 1 },
         some ((closeSession (freshSession 1)).1,
               (closeSession (freshSession 1)).2))
  ∧ (closeSession (freshSession 1)).2 = fullTeardown :=
  ⟨(onClientDisconnect_take_once routerEmpty 5).1 rfl,
   ((onClientDisconnect_take_once routerOpen 1).2 (freshSession 1)
      rfl (by decide)).1,
   (((onClientDisconnect_take_once routerOpen 1).2 (freshSession 1)
      rfl (by decide)).2.2.2 rfl).1⟩

/-- C7: the teardown body performs its steps in source order - set the
lifecycle flag, close the stop channel, close the engine-side channel,
close the engine process handle, as recorded by the effect trace - it
never touches the client-side channel, and each release step tolerates an
already-released resource without an error: closing an already-closed
engine channel is a success no-op, and the handle close (modelled from the
spec, the `browser` package being outside the given sources) always
succeeds. -/
theorem closeSession_order_and_tolerance (s : BrowserSession) :
    ((closeSession s).1.client = s.client)
  ∧ (s.closed = false →
       closeSession s
         = ({ s with
               closed := true
               stopClosed := true
               stopCloseCount := s.stopCloseCount + 1
               bidi := (connectionClose s.bidi true).1
               launchClosed := (launchHandleClose s.launchClosed).1
               launchCloseCount := s.launchCloseCount + 1 },
            [TeardownStep.setClosed, TeardownStep.closeStop,
             TeardownStep.closeBidi, TeardownStep.closeLaunch]))
  ∧ (∀ (c : ChanState) (w : Bool), c.closed = true →
       connectionClose c w = (c, Except.ok ()))
  ∧ (∀ b : Bool, (launchHandleClose b).2 = Except.ok ()) := by
  refine ⟨?_, ?_, ?_, fun b => rfl⟩
  · cases hc : s.closed <;> simp [closeSession, hc]
  · intro hc
    simp [closeSession, hc, fullTeardown]
  · intro c w hc
    simp [connectionClose, hc]

/-- Witness for C7 at a fresh session and an already-closed channel. -/
theorem closeSession_order_and_tolerance_witness :
    closeSession (freshSession 3)
      = ({ freshSession 3 with
            closed := true
            stopClosed := true
            stopCloseCount := (freshSession 3).stopCloseCount + 1
            bidi := (connectionClose (freshSession 3).bidi true).1
            launchClosed := (launchHandleClose (freshSession 3).launchClosed).1
            launchCloseCount := (freshSession 3).launchCloseCount + 1 },
         [TeardownStep.setClosed, TeardownStep.closeStop,
          TeardownStep.closeBidi, TeardownStep.closeLaunch])
  ∧ connectionClose (closeSession (freshSession 3)).1.bidi false
      = ((closeSession (freshSession 3)).1.bidi, Except.ok ()) :=
  ⟨(closeSession_order_and_tolerance (freshSession 3)).2.1 rfl,
   (closeSession_order_and_tolerance (freshSession 3)).2.2.1 _ false
     (by decide)⟩

/-- Counterexample for C8 as stated: on the engine side a non-text frame
is not dropped - `Connection.Receive` on an open channel returns the
protocol-violation error for a concrete binary frame (type 2), and a
receive failure makes the relay loop close the client channel and exit,
terminating the session. -/
theorem connectionReceive_nontext_cex :
    connectionReceive chanInit (ReadOutcome.frame 2 "p")
        = Except.error (ChanError.protocolViolation 2)
  ∧ (2 : Nat) ≠ textMessage
  ∧ routeBrowserToClient false [RelayInput.recvFail]
        = ([], RelayExit.recvFailed true) :=
  ⟨rfl, by decide, rfl⟩

/-- C8 amended: the client-side read loop skips a non-text frame and
continues with the remaining frames, while the engine-side receive treats
a non-text frame as a fatal channel-level error, returning the
protocol-violation error rather than skipping it. -/
theorem nontext_frames_amended (t : Nat) (p : String)
    (rest : List ReadOutcome) (c : ChanState) :
    (t ≠ textMessage →
       handleClientLoop (ReadOutcome.frame t p :: rest)
         = handleClientLoop rest)
  ∧ (c.closed = false → t ≠ textMessage →
       connectionReceive c (ReadOutcome.frame t p)
         = Except.error (ChanError.protocolViolation t)) := by
  constructor
  · intro ht
    simp [handleClientLoop, ht]
  · intro hc ht
    simp [connectionReceive, hc, ht]

/-- Witness for the amended C8 at a concrete close-frame type. -/
theorem nontext_frames_amended_witness :
    handleClientLoop [ReadOutcome.frame 8 "q", ReadOutcome.frame 1 "r"]
        = handleClientLoop [ReadOutcome.frame 1 "r"]
  ∧ connectionReceive chanInit (ReadOutcome.frame 8 "q")
        = Except.error (ChanError.protocolViolation 8) :=
  ⟨(nontext_frames_amended 8 "q" [ReadOutcome.frame 1 "r"] chanInit).1
     (by decide),
   (nontext_frames_amended 8 "q" [ReadOutcome.frame 1 "r"] chanInit).2
     rfl (by decide)⟩
